import Mathlib

/-!
Verification of the metrics aggregation and fan-out pipeline of
`versitygw` (`metrics/metrics.go`) against its natural-language
specification.

The Go code is shallowly embedded as pure Lean functions over an explicit
`Manager` state.  Conventions of the embedding:

* The buffered channel `addDataChan` is a FIFO list `buffer` together with
  its fixed `capacity` and a `chanClosed` flag.  Go's non-blocking
  `select { case ch <- d: default: }` appends when the channel is open and
  not full, silently drops when full, and (by Go semantics) faults when the
  channel has been closed; faulting outcomes are rendered as
  `Except.error`, normal returns as `Except.ok`.
* The external cancellation context is read through the Boolean
  `ctxCancelled` (`m.ctx.Err() != nil`).
* The single consumer goroutine (`addForwarder`) and publisher shutdown are
  rendered as the trace of `Event`s they generate, in program order; the
  sequential model renders `wg.Wait()` as the drain being complete before
  `Close` produces the shutdown events.
* Machine integers (`int64` counts) are modelled as `Int`; no arithmetic in
  the pipeline can overflow since values are only moved, never combined.
-/

namespace Metrics

/-- Max size of data items to buffer before dropping new incoming data
items (`dataItemCount` in metrics.go). -/
def dataItemCount : Nat := 100000

/-- Tag is added metadata for metrics (struct `Tag` in metrics.go). -/
structure Tag where
  Key : String
  Value : String
  deriving DecidableEq, Repr

/-- One metric event (struct `datapoint` in metrics.go). -/
structure datapoint where
  module : String
  key : String
  value : Int
  tags : List Tag
  deriving DecidableEq, Repr

/-- Configuration (struct `Config` in metrics.go). -/
structure Config where
  ServiceName : String
  StatsdServers : String
  DogStatsdServers : String
  deriving DecidableEq, Repr

/-- State of a live `Manager` (struct `Manager` in metrics.go).  Publishers
are identified abstractly by the handles the publisher constructors return;
`publishers` lists them in registration order. -/
structure Manager where
  ctxCancelled : Bool
  chanClosed : Bool
  buffer : List datapoint
  capacity : Nat
  publishers : List Nat
  config : Config
  deriving DecidableEq, Repr

/-- Modelled from the spec: the sentinel action name substituted for an
empty action ("undetected-action"); the constant `ActionUndetected` is
declared outside the given sources. -/
def ActionUndetected : String := "undetected-action"

/-- Modelled from the spec: the action-name constant for PutObject,
declared outside the given sources. -/
def ActionPutObject : String := "PutObject"

/-- Modelled from the spec: the action-name constant for
CompleteMultipartUpload, declared outside the given sources. -/
def ActionCompleteMultipartUpload : String := "CompleteMultipartUpload"

/-- Modelled from the spec: the action-name constant for UploadPart,
declared outside the given sources. -/
def ActionUploadPart : String := "UploadPart"

/-- Modelled from the spec: the action-name constant for GetObject,
declared outside the given sources. -/
def ActionGetObject : String := "GetObject"

/-- Modelled from the spec: the action-name constant for DeleteObject,
declared outside the given sources. -/
def ActionDeleteObject : String := "DeleteObject"

/-- Modelled from the spec: the action-name constant for DeleteObjects,
declared outside the given sources. -/
def ActionDeleteObjects : String := "DeleteObjects"

/-- `add` (metrics.go:144-161): adds `value` to `key`.  Returns early when
the cancellation context is set; otherwise performs the non-blocking
channel send.  Sending on a closed channel faults (Go run-time semantics),
a full channel drops the datapoint. -/
def add (m : Manager) (module key : String) (value : Int) (tags : List Tag) :
    Except String Manager :=
  if m.ctxCancelled then
    .ok m
  else if m.chanClosed then
    .error "send on closed channel"
  else if m.buffer.length < m.capacity then
    .ok { m with buffer := m.buffer ++ [⟨module, key, value, tags⟩] }
  else
    .ok m

/-- `increment` (metrics.go:139-141): increments the key by one. -/
def increment (m : Manager) (module key : String) (tags : List Tag) :
    Except String Manager :=
  add m module key 1 tags

/-- `Send` (metrics.go:110-136): maps one outcome (error flag, action,
count) to a sequence of `increment`/`add` calls.  `errNonNil` renders
`err != nil`.  Go's `switch` is an ordered if-chain over the action
constants. -/
def Send (m : Manager) (errNonNil : Bool) (action : String) (count : Int) :
    Except String Manager :=
  let action := if action = "" then ActionUndetected else action
  (if errNonNil then
      increment m action "failed_count" []
    else
      increment m action "success_count" []).bind fun m =>
    if action = ActionPutObject then
      (add m action "bytes_written" count []).bind fun m =>
        increment m action "object_created_count" []
    else if action = ActionCompleteMultipartUpload then
      increment m action "object_created_count" []
    else if action = ActionUploadPart then
      add m action "bytes_written" count []
    else if action = ActionGetObject then
      add m action "bytes_read" count []
    else if action = ActionDeleteObject then
      increment m action "object_removed_count" []
    else if action = ActionDeleteObjects then
      add m action "object_removed_count" count []
    else
      .ok m

/-- The pure action-to-metric mapper underlying `Send`: the list of
datapoints `Send` hands to the enqueue step, in call order.  Each
`increment(module, key)` contributes `⟨module, key, 1, []⟩`, each
`add(module, key, count)` contributes `⟨module, key, count, []⟩`; the
variadic `tags` argument is never supplied by `Send`. -/
def sendDatapoints (errNonNil : Bool) (action : String) (count : Int) :
    List datapoint :=
  let action := if action = "" then ActionUndetected else action
  (if errNonNil then
      [⟨action, "failed_count", 1, []⟩]
    else
      [⟨action, "success_count", 1, []⟩]) ++
  (if action = ActionPutObject then
      [⟨action, "bytes_written", count, []⟩, ⟨action, "object_created_count", 1, []⟩]
    else if action = ActionCompleteMultipartUpload then
      [⟨action, "object_created_count", 1, []⟩]
    else if action = ActionUploadPart then
      [⟨action, "bytes_written", count, []⟩]
    else if action = ActionGetObject then
      [⟨action, "bytes_read", count, []⟩]
    else if action = ActionDeleteObject then
      [⟨action, "object_removed_count", 1, []⟩]
    else if action = ActionDeleteObjects then
      [⟨action, "object_removed_count", count, []⟩]
    else
      [])

/-- Enqueue a list of datapoints one after the other through `add`,
propagating a fault.  `Send` is this fold over `sendDatapoints`. -/
def enqueueAll (m : Manager) : List datapoint → Except String Manager
  | [] => .ok m
  | d :: rest => (add m d.module d.key d.value d.tags).bind
      fun m' => enqueueAll m' rest

/-- An observable interaction with a publisher: `Add` (record) or `Close`
(shutdown), tagged with the publisher's handle. -/
inductive Event where
  | record (pub : Nat) (d : datapoint)
  | shutdown (pub : Nat)
  deriving DecidableEq, Repr

/-- Body of one iteration of the consumer loop (metrics.go:182-185):
deliver one datapoint to every publisher in registration order. -/
def forwardOne (publishers : List Nat) (d : datapoint) : List Event :=
  publishers.map (fun p => Event.record p d)

/-- `addForwarder` (metrics.go:181-188), rendered as the trace of `Add`
calls the consumer makes while draining the given buffer contents in FIFO
order. -/
def addForwarder (publishers : List Nat) : List datapoint → List Event
  | [] => []
  | d :: rest => forwardOne publishers d ++ addForwarder publishers rest

/-- `Close` (metrics.go:164-173): closes the channel, waits for the
consumer to drain (so the returned state has an empty buffer), then closes
every publisher in registration order.  Returns the final state and the
trace of publisher interactions performed during the call. -/
def Close (m : Manager) : Manager × List Event :=
  ({ m with chanClosed := true, buffer := [] },
   addForwarder m.publishers m.buffer ++ m.publishers.map Event.shutdown)

/-- Construction-time failures of `NewManager`: the wrapped
`os.Hostname` failure (`"failed to get hostname: ..."`), or an error
propagated from a publisher constructor. -/
inductive ConstructionError where
  | hostnameError
  | publisherError (msg : String)
  deriving DecidableEq, Repr

/-- The per-endpoint-group publisher setup loop of `NewManager`
(metrics.go:82-88 and 95-101): construct a publisher for each server,
propagating the first constructor error. -/
def initPublishers (mk : String → String → Except String Nat)
    (serviceName : String) : List String → Except String (List Nat)
  | [] => .ok []
  | s :: rest => (mk s serviceName).bind fun p =>
      (initPublishers mk serviceName rest).map (fun ps => p :: ps)

/-- The endpoint-setup tail of `NewManager` (metrics.go:78-107): build the
statsd publishers, then the dogstatsd publishers, propagating constructor
errors, then start the forwarder and return the manager. -/
def setupPublishers (ctxCancelled : Bool) (conf : Config)
    (newStatsd newDogStatsd : String → String → Except String Nat) :
    Except ConstructionError (Option Manager) :=
  (if conf.StatsdServers.length > 0 then
      (initPublishers newStatsd conf.ServiceName
          (conf.StatsdServers.splitOn ",")).mapError ConstructionError.publisherError
    else
      .ok []).bind fun statsdPubs =>
  (if conf.DogStatsdServers.length > 0 then
      (initPublishers newDogStatsd conf.ServiceName
          (conf.DogStatsdServers.splitOn ",")).mapError ConstructionError.publisherError
    else
      .ok []).bind fun dogPubs =>
  .ok (some { ctxCancelled := ctxCancelled, chanClosed := false, buffer := [],
              capacity := dataItemCount, publishers := statsdPubs ++ dogPubs,
              config := conf })

/-- `NewManager` (metrics.go:57-108).  The environment is passed in
explicitly: `ctxCancelled` is the current state of the injected context,
`hostname` the outcome of `os.Hostname` (`none` = resolution failure), and
`newStatsd` / `newDogStatsd` the publisher constructors, which are
modelled from the spec as abstract fallible constructors since their code
is outside the given sources.  `.ok none` renders the Go return
`(nil, nil)` (the absent pipeline). -/
def NewManager (ctxCancelled : Bool) (conf : Config) (hostname : Option String)
    (newStatsd newDogStatsd : String → String → Except String Nat) :
    Except ConstructionError (Option Manager) :=
  if conf.StatsdServers.length = 0 ∧ conf.DogStatsdServers.length = 0 then
    .ok none
  else
    (if conf.ServiceName = "" then
        match hostname with
        | none => Except.error ConstructionError.hostnameError
        | some h => Except.ok { conf with ServiceName := h }
      else
        Except.ok conf).bind fun conf =>
    setupPublishers ctxCancelled conf newStatsd newDogStatsd

/-- `Send` invoked through a possibly-absent pipeline (`*Manager` that may
be nil).  In Go a method with a pointer receiver runs its body on a nil
receiver, and `add` immediately dereferences `m.ctx` (metrics.go:145), so
the call faults on the absent pipeline. -/
def sendOnPipeline (mo : Option Manager) (errNonNil : Bool) (action : String)
    (count : Int) : Except String (Option Manager) :=
  match mo with
  | none => .error "invalid memory address or nil pointer dereference"
  | some m => (Send m errNonNil action count).map some

/-- `Close` invoked through a possibly-absent pipeline.  On a nil receiver
the body dereferences `m.addDataChan` (metrics.go:166) and faults. -/
def closeOnPipeline (mo : Option Manager) :
    Except String (Option Manager × List Event) :=
  match mo with
  | none => .error "invalid memory address or nil pointer dereference"
  | some m => .ok (some (Close m).1, (Close m).2)

/-- Recognizer for a record event addressed to publisher `p`. -/
def isRecordOf (p : Nat) : Event → Bool
  | .record q _ => q == p
  | .shutdown _ => false

/-- Recognizer for record events. -/
def isRecordEvent : Event → Bool
  | .record _ _ => true
  | .shutdown _ => false

/-! ### Helper lemmas -/

theorem except_bind_ok {ε α : Type} (x : Except ε α) :
    x.bind Except.ok = x := by
  cases x <;> rfl

theorem except_ok_bind {ε α β : Type} (a : α) (f : α → Except ε β) :
    (Except.ok a : Except ε α).bind f = f a := rfl

theorem except_error_bind {ε α β : Type} (e : ε) (f : α → Except ε β) :
    (Except.error e : Except ε α).bind f = Except.error e := rfl

theorem except_bind_assoc {ε α β γ : Type} (x : Except ε α)
    (f : α → Except ε β) (g : β → Except ε γ) :
    (x.bind f).bind g = x.bind (fun a => (f a).bind g) := by
  cases x <;> rfl

/-- `Send` is exactly the enqueueing of the mapper's datapoint list. -/
theorem Send_eq_enqueueAll (m : Manager) (e : Bool) (a : String) (c : Int) :
    Send m e a c = enqueueAll m (sendDatapoints e a c) := by
  unfold Send sendDatapoints increment
  cases e <;> split_ifs <;>
    simp_all [enqueueAll, except_bind_ok, except_bind_assoc, ActionUndetected,
      ActionPutObject, ActionCompleteMultipartUpload, ActionUploadPart,
      ActionGetObject, ActionDeleteObject, ActionDeleteObjects] <;>
    (apply congrArg
     funext m1
     split_ifs <;>
       simp_all [enqueueAll, except_bind_ok, except_bind_assoc])

/-- An `add` call never faults while the channel is open, and the resulting
buffer is the old one, possibly extended by the one new datapoint. -/
theorem add_ok_cases (m : Manager) (mo k : String) (v : Int) (tg : List Tag)
    (m' : Manager) (h : add m mo k v tg = .ok m') :
    (m' = m) ∨
      (m' = { m with buffer := m.buffer ++ [⟨mo, k, v, tg⟩] }) := by
  unfold add at h
  split_ifs at h <;> simp_all

/-- Filtering the records of an absent publisher out of one fan-out step
yields nothing. -/
theorem forwardOne_filter_not_mem (pubs : List Nat) (p : Nat) (d : datapoint)
    (h : p ∉ pubs) :
    (forwardOne pubs d).filter (isRecordOf p) = [] := by
  induction pubs with
  | nil => rfl
  | cons q rest ih =>
      simp only [List.mem_cons, not_or] at h
      have hq : (q == p) = false :=
        beq_eq_false_iff_ne.mpr (fun hh => h.1 hh.symm)
      simpa [forwardOne, List.filter_cons, isRecordOf, hq] using ih h.2

/-- One fan-out step delivers exactly one record to each registered
publisher. -/
theorem forwardOne_filter_mem (pubs : List Nat) (p : Nat) (d : datapoint)
    (hmem : p ∈ pubs) (hnd : pubs.Nodup) :
    (forwardOne pubs d).filter (isRecordOf p) = [Event.record p d] := by
  induction pubs with
  | nil => cases hmem
  | cons q rest ih =>
      rcases List.mem_cons.mp hmem with h | h
      · subst h
        have hnotin : p ∉ rest := (List.nodup_cons.mp hnd).1
        simpa [forwardOne, List.filter_cons, isRecordOf]
          using forwardOne_filter_not_mem rest p d hnotin
      · have hq : (q == p) = false := by
          refine beq_eq_false_iff_ne.mpr ?_
          rintro rfl
          exact (List.nodup_cons.mp hnd).1 h
        simpa [forwardOne, List.filter_cons, isRecordOf, hq]
          using ih h (List.nodup_cons.mp hnd).2

/-- Draining a buffer delivers to publisher `p` exactly one record per
buffered datapoint, in FIFO order. -/
theorem addForwarder_filter (pubs : List Nat) (p : Nat) (buf : List datapoint)
    (hmem : p ∈ pubs) (hnd : pubs.Nodup) :
    (addForwarder pubs buf).filter (isRecordOf p) =
      buf.map (Event.record p) := by
  induction buf with
  | nil => rfl
  | cons d rest ih =>
      simp only [addForwarder, List.filter_append, ih,
        forwardOne_filter_mem pubs p d hmem hnd, List.map,
        List.singleton_append]

/-- Every event the consumer emits while draining is a record. -/
theorem addForwarder_all_records (pubs : List Nat) (buf : List datapoint) :
    ∀ ev ∈ addForwarder pubs buf, isRecordEvent ev = true := by
  induction buf with
  | nil => intro ev h; cases h
  | cons d rest ih =>
      intro ev h
      rcases List.mem_append.mp h with h | h
      · rcases List.mem_map.mp h with ⟨q, _, rfl⟩
        rfl
      · exact ih ev h

/-- With the cancellation context set, every enqueue returns immediately
and changes nothing. -/
theorem enqueueAll_cancelled (ds : List datapoint) (m : Manager)
    (h : m.ctxCancelled = true) : enqueueAll m ds = .ok m := by
  induction ds with
  | nil => rfl
  | cons d rest ih => simp [enqueueAll, add, h, Except.bind, ih]

/-- With the channel closed and the context not cancelled, the first
enqueue of a non-empty batch faults. -/
theorem enqueueAll_closed (ds : List datapoint) (m : Manager)
    (hne : ds ≠ []) (hcl : m.chanClosed = true) (hc : m.ctxCancelled = false) :
    enqueueAll m ds = .error "send on closed channel" := by
  cases ds with
  | nil => cases hne rfl
  | cons d rest => simp [enqueueAll, add, hcl, hc, Except.bind]

/-- The mapper always emits at least the status datapoint. -/
theorem sendDatapoints_ne_nil (e : Bool) (a : String) (c : Int) :
    sendDatapoints e a c ≠ [] := by
  unfold sendDatapoints
  cases e <;> split_ifs <;> simp

/-- No datapoint the mapper emits carries a tag. -/
theorem sendDatapoints_tags (e : Bool) (a : String) (c : Int)
    (d : datapoint) (hd : d ∈ sendDatapoints e a c) : d.tags = [] := by
  unfold sendDatapoints at hd
  rcases List.mem_append.mp hd with h | h
  · cases e <;> simp_all
  · split_ifs at h <;>
      simp only [List.mem_cons, List.mem_singleton, List.not_mem_nil,
        or_false] at h <;>
      rcases h with rfl | rfl <;> rfl

/-- Enqueueing tagless datapoints preserves a tagless buffer. -/
theorem enqueueAll_tags_invariant (ds : List datapoint)
    (hds : ∀ d ∈ ds, d.tags = []) :
    ∀ m m' : Manager, (∀ d ∈ m.buffer, d.tags = []) →
      enqueueAll m ds = .ok m' → ∀ d ∈ m'.buffer, d.tags = [] := by
  induction ds with
  | nil =>
      intro m m' hm h
      simp only [enqueueAll] at h
      cases h
      exact hm
  | cons d rest ih =>
      intro m m' hm h
      simp only [enqueueAll] at h
      cases hadd : add m d.module d.key d.value d.tags with
      | error msg => rw [hadd] at h; cases h
      | ok m1 =>
          rw [hadd] at h
          have hm1 : ∀ d' ∈ m1.buffer, d'.tags = [] := by
            rcases add_ok_cases m d.module d.key d.value d.tags m1 hadd with
              rfl | rfl
            · exact hm
            · intro d' hd'
              rcases List.mem_append.mp hd' with h1 | h1
              · exact hm d' h1
              · rcases List.mem_singleton.mp h1 with rfl
                exact hds d (List.mem_cons_self d rest)
          exact ih (fun d' hd' => hds d' (List.mem_cons_of_mem d hd')) m1 m'
            hm1 h

/-- An error coming out of the guarded publisher-setup step is always a
propagated publisher-constructor error. -/
theorem ite_mapError_error (b : Prop) [Decidable b]
    (x : Except String (List Nat)) (e : ConstructionError)
    (h : (if b then x.mapError ConstructionError.publisherError
          else Except.ok []) = Except.error e) :
    ∃ msg, e = ConstructionError.publisherError msg := by
  split at h
  · cases x with
    | error msg =>
        simp only [Except.mapError, Except.error.injEq] at h
        exact ⟨msg, h.symm⟩
    | ok ps => simp [Except.mapError] at h
  · cases h

/-- Publisher setup either produces a manager recording exactly the given
configuration, or fails with a publisher-constructor error. -/
theorem setupPublishers_cases (ctxc : Bool) (conf : Config)
    (ns nds : String → String → Except String Nat) :
    (∃ mgr, setupPublishers ctxc conf ns nds = .ok (some mgr) ∧
      mgr.config = conf) ∨
    (∃ msg, setupPublishers ctxc conf ns nds =
      .error (ConstructionError.publisherError msg)) := by
  unfold setupPublishers
  cases h1 : (if conf.StatsdServers.length > 0 then
      (initPublishers ns conf.ServiceName
          (conf.StatsdServers.splitOn ",")).mapError ConstructionError.publisherError
    else
      Except.ok []) with
  | error e1 =>
      rcases ite_mapError_error _ _ _ h1 with ⟨msg, rfl⟩
      exact Or.inr ⟨msg, rfl⟩
  | ok ps1 =>
      cases h2 : (if conf.DogStatsdServers.length > 0 then
          (initPublishers nds conf.ServiceName
              (conf.DogStatsdServers.splitOn ",")).mapError ConstructionError.publisherError
        else
          Except.ok []) with
      | error e2 =>
          rcases ite_mapError_error _ _ _ h2 with ⟨msg, rfl⟩
          exact Or.inr ⟨msg, rfl⟩
      | ok ps2 =>
          exact Or.inl ⟨_, rfl, rfl⟩

/-! ### Concrete states used by the witnesses -/

/-- A concrete running manager with two buffered datapoints and two
publishers. -/
def sampleManager : Manager :=
  { ctxCancelled := false, chanClosed := false,
    buffer := [⟨"PutObject", "bytes_written", 100, []⟩,
               ⟨"GetObject", "bytes_read", 42, []⟩],
    capacity := 100000, publishers := [0, 1],
    config := ⟨"svc", "localhost:8125", ""⟩ }

/-- The sample manager after the external cancellation signal fired. -/
def cancelledManager : Manager :=
  { sampleManager with ctxCancelled := true }

/-- The sample manager after cancellation and after `Close` closed the
channel. -/
def cancelledClosedManager : Manager :=
  { sampleManager with ctxCancelled := true, chanClosed := true }

/-- The sample manager after `Close` closed the channel, cancellation not
signalled. -/
def closedManager : Manager :=
  { sampleManager with chanClosed := true }

/-! ### Claim theorems -/

/-- C3: for every outcome the mapper substitutes the sentinel action name
"undetected-action" when the action is empty and emits, first, exactly one
status increment of value 1 under `module = action` — `failed_count` when
the error is set, `success_count` otherwise — ahead of all action-specific
datapoints (no later datapoint uses a status key); and
`report({error: none, action: "", count: 0})` yields exactly one datapoint,
`success_count +1` under "undetected-action". -/
theorem status_increment_first (e : Bool) (a : String) (c : Int) :
    (sendDatapoints e a c).head? =
      some ⟨if a = "" then ActionUndetected else a,
            if e then "failed_count" else "success_count", 1, []⟩ ∧
    (∀ d ∈ (sendDatapoints e a c).drop 1,
      d.key ≠ "failed_count" ∧ d.key ≠ "success_count") ∧
    sendDatapoints false "" 0 = [⟨ActionUndetected, "success_count", 1, []⟩] := by
  refine ⟨?_, ?_, by decide⟩
  · unfold sendDatapoints
    cases e <;> simp
  · intro d hd
    unfold sendDatapoints at hd
    cases e <;>
      simp only [Bool.false_eq_true, if_true, if_false, ite_true, ite_false,
        List.singleton_append, List.drop_succ_cons, List.drop_zero] at hd <;>
      split_ifs at hd <;>
      simp only [List.mem_cons, List.mem_singleton, List.not_mem_nil,
        or_false] at hd <;>
      rcases hd with rfl | rfl <;> exact ⟨by simp, by simp⟩

/-- Witness for C3 at the concrete outcome
(error set, action "GetObject", count 42). -/
theorem status_increment_first_witness :
    (sendDatapoints true "GetObject" 42).head? =
      some ⟨if ("GetObject" : String) = "" then ActionUndetected else "GetObject",
            if (true : Bool) then "failed_count" else "success_count", 1, []⟩ ∧
    ((⟨"GetObject", "bytes_read", 42, []⟩ : datapoint).key ≠ "failed_count" ∧
      (⟨"GetObject", "bytes_read", 42, []⟩ : datapoint).key ≠ "success_count") :=
  ⟨(status_increment_first true "GetObject" 42).1,
   (status_increment_first true "GetObject" 42).2.1
     ⟨"GetObject", "bytes_read", 42, []⟩ (by decide)⟩

/-- C2: the action-specific rule of the fixed table fires after the status
increment regardless of the error flag: for each action of the table the
mapper's datapoints after the first are exactly the table's entries, any
other action adds nothing, and the two concrete scenarios of the spec hold
(`PutObject` success with count 100; `GetObject` failure with count 42). -/
theorem action_table_fires_regardless_of_error (e : Bool) (c : Int)
    (a : String) :
    ((sendDatapoints e ActionPutObject c).drop 1 =
      [⟨ActionPutObject, "bytes_written", c, []⟩,
       ⟨ActionPutObject, "object_created_count", 1, []⟩]) ∧
    ((sendDatapoints e ActionCompleteMultipartUpload c).drop 1 =
      [⟨ActionCompleteMultipartUpload, "object_created_count", 1, []⟩]) ∧
    ((sendDatapoints e ActionUploadPart c).drop 1 =
      [⟨ActionUploadPart, "bytes_written", c, []⟩]) ∧
    ((sendDatapoints e ActionGetObject c).drop 1 =
      [⟨ActionGetObject, "bytes_read", c, []⟩]) ∧
    ((sendDatapoints e ActionDeleteObject c).drop 1 =
      [⟨ActionDeleteObject, "object_removed_count", 1, []⟩]) ∧
    ((sendDatapoints e ActionDeleteObjects c).drop 1 =
      [⟨ActionDeleteObjects, "object_removed_count", c, []⟩]) ∧
    (a ≠ "" →
      a ∉ [ActionPutObject, ActionCompleteMultipartUpload, ActionUploadPart,
        ActionGetObject, ActionDeleteObject, ActionDeleteObjects] →
      (sendDatapoints e a c).drop 1 = []) ∧
    (sendDatapoints false ActionPutObject 100 =
      [⟨ActionPutObject, "success_count", 1, []⟩,
       ⟨ActionPutObject, "bytes_written", 100, []⟩,
       ⟨ActionPutObject, "object_created_count", 1, []⟩]) ∧
    (sendDatapoints true ActionGetObject 42 =
      [⟨ActionGetObject, "failed_count", 1, []⟩,
       ⟨ActionGetObject, "bytes_read", 42, []⟩]) := by
  have generic : a ≠ "" →
      a ∉ [ActionPutObject, ActionCompleteMultipartUpload, ActionUploadPart,
        ActionGetObject, ActionDeleteObject, ActionDeleteObjects] →
      (sendDatapoints e a c).drop 1 = [] := by
    intro h1 h2
    simp only [List.mem_cons, List.mem_singleton, List.not_mem_nil,
      or_false, not_or] at h2
    obtain ⟨n1, n2, n3, n4, n5, n6⟩ := h2
    cases e <;> simp [sendDatapoints, h1, n1, n2, n3, n4, n5, n6]
  refine ⟨?_, ?_, ?_, ?_, ?_, ?_, generic, by decide, by decide⟩ <;>
    cases e <;>
    simp [sendDatapoints, ActionUndetected, ActionPutObject,
      ActionCompleteMultipartUpload, ActionUploadPart, ActionGetObject,
      ActionDeleteObject, ActionDeleteObjects]

/-- Witness for C2 at the concrete non-table action "HeadObject". -/
theorem action_table_witness :
    ("HeadObject" : String) ≠ "" ∧
    ("HeadObject" : String) ∉
      [ActionPutObject, ActionCompleteMultipartUpload, ActionUploadPart,
       ActionGetObject, ActionDeleteObject, ActionDeleteObjects] ∧
    (sendDatapoints true "HeadObject" 7).drop 1 = [] :=
  ⟨by decide, by decide,
   (action_table_fires_regardless_of_error true 7 "HeadObject").2.2.2.2.2.2.1
     (by decide) (by decide)⟩

/-- C10: the ingestion path never attaches a tag: every datapoint the
mapper produces carries the empty tag sequence, and a `Send` through the
stateful pipeline keeps every datapoint in the buffer tagless. -/
theorem ingestion_attaches_no_tags :
    (∀ (e : Bool) (a : String) (c : Int) (d : datapoint),
      d ∈ sendDatapoints e a c → d.tags = []) ∧
    (∀ (m m' : Manager) (e : Bool) (a : String) (c : Int),
      (∀ d ∈ m.buffer, d.tags = []) → Send m e a c = .ok m' →
      ∀ d ∈ m'.buffer, d.tags = []) := by
  constructor
  · exact fun e a c d hd => sendDatapoints_tags e a c d hd
  · intro m m' e a c hm h
    rw [Send_eq_enqueueAll] at h
    exact enqueueAll_tags_invariant _
      (fun d hd => sendDatapoints_tags e a c d hd) m m' hm h

/-- Witness for C10 at the concrete datapoint the mapper produces for a
successful `PutObject` of 5 bytes. -/
theorem ingestion_attaches_no_tags_witness :
    ((⟨"PutObject", "bytes_written", 5, []⟩ : datapoint) ∈
      sendDatapoints false "PutObject" 5) ∧
    (⟨"PutObject", "bytes_written", 5, []⟩ : datapoint).tags = [] :=
  ⟨by decide,
   ingestion_attaches_no_tags.1 false "PutObject" 5
     ⟨"PutObject", "bytes_written", 5, []⟩ (by decide)⟩

/-- C4: with the channel open, the enqueue step is total (it always
returns `ok`, never an error — the model of a non-blocking, non-failing
call): with cancellation set it discards without touching the buffer, with
the buffer full it discards silently, and otherwise it appends the
datapoint. -/
theorem enqueue_never_blocks_never_errors (m : Manager) (mo k : String)
    (v : Int) (tg : List Tag) (hcl : m.chanClosed = false) :
    (∃ m', add m mo k v tg = .ok m') ∧
    (m.ctxCancelled = true → add m mo k v tg = .ok m) ∧
    (m.ctxCancelled = false → m.capacity ≤ m.buffer.length →
      add m mo k v tg = .ok m) ∧
    (m.ctxCancelled = false → m.buffer.length < m.capacity →
      add m mo k v tg = .ok { m with buffer := m.buffer ++ [⟨mo, k, v, tg⟩] }) := by
  refine ⟨?_, fun hc => by simp [add, hc], fun hc hfull => ?_,
    fun hc hroom => ?_⟩
  · by_cases hc : m.ctxCancelled
    · exact ⟨m, by simp [add, hc]⟩
    · by_cases hf : m.buffer.length < m.capacity
      · exact ⟨{ m with buffer := m.buffer ++ [⟨mo, k, v, tg⟩] },
          by simp [add, hc, hcl, hf]⟩
      · exact ⟨m, by simp [add, hc, hcl, hf]⟩
  · have hnl : ¬m.buffer.length < m.capacity := by omega
    simp [add, hc, hcl, hnl]
  · simp [add, hc, hcl, hroom]

/-- Witness for C4: on the sample manager an enqueue with room appends the
datapoint. -/
theorem enqueue_never_blocks_never_errors_witness :
    sampleManager.chanClosed = false ∧
    sampleManager.ctxCancelled = false ∧
    sampleManager.buffer.length < sampleManager.capacity ∧
    add sampleManager "GetObject" "bytes_read" 1 [] =
      .ok { sampleManager with
            buffer := sampleManager.buffer ++ [⟨"GetObject", "bytes_read", 1, []⟩] } :=
  ⟨rfl, rfl, by decide,
   (enqueue_never_blocks_never_errors sampleManager "GetObject" "bytes_read"
       1 [] rfl).2.2.2 rfl (by decide)⟩

/-- C9: the cancellation check strictly precedes the buffer operation, so
a `report` made with the signal set returns normally with no effect — no
fault even if `Close` has already closed the channel (the statement holds
for every value of `chanClosed`; the witness instantiates it with the
channel closed). -/
theorem cancelled_report_is_safe_noop (m : Manager) (e : Bool) (a : String)
    (c : Int) (h : m.ctxCancelled = true) : Send m e a c = .ok m := by
  rw [Send_eq_enqueueAll]
  exact enqueueAll_cancelled _ m h

/-- Witness for C9 on a manager whose channel is already closed. -/
theorem cancelled_report_is_safe_noop_witness :
    cancelledClosedManager.ctxCancelled = true ∧
    cancelledClosedManager.chanClosed = true ∧
    Send cancelledClosedManager false "PutObject" 100 =
      .ok cancelledClosedManager :=
  ⟨rfl, rfl,
   cancelled_report_is_safe_noop cancelledClosedManager false "PutObject"
     100 rfl⟩

/-- C5: once the cancellation signal is set every subsequent `report`
leaves the manager untouched (nothing is enqueued, so nothing reported
post-signal can ever reach a publisher), while the datapoints already
buffered are neither flushed nor dropped and the consumer still delivers
every one of them to every registered publisher in order — the consumer
loop never consults the signal. -/
theorem cancellation_discards_new_but_drains_old (m : Manager) (e : Bool)
    (a : String) (c : Int) (p : Nat) (hc : m.ctxCancelled = true)
    (hnd : m.publishers.Nodup) (hp : p ∈ m.publishers) :
    Send m e a c = .ok m ∧
    (addForwarder m.publishers m.buffer).filter (isRecordOf p) =
      m.buffer.map (Event.record p) :=
  ⟨by rw [Send_eq_enqueueAll]; exact enqueueAll_cancelled _ m hc,
   addForwarder_filter m.publishers p m.buffer hp hnd⟩

/-- Witness for C5 on the cancelled sample manager, publisher 1. -/
theorem cancellation_discards_new_but_drains_old_witness :
    cancelledManager.ctxCancelled = true ∧
    cancelledManager.publishers.Nodup ∧
    1 ∈ cancelledManager.publishers ∧
    Send cancelledManager true "GetObject" 7 = .ok cancelledManager ∧
    (addForwarder cancelledManager.publishers cancelledManager.buffer).filter
        (isRecordOf 1) =
      cancelledManager.buffer.map (Event.record 1) :=
  ⟨rfl, by decide, by decide,
   (cancellation_discards_new_but_drains_old cancelledManager true
       "GetObject" 7 1 rfl (by decide) (by decide)).1,
   (cancellation_discards_new_but_drains_old cancelledManager true
       "GetObject" 7 1 rfl (by decide) (by decide)).2⟩

/-- C6: once `Close` has closed the channel, no `report` ever enqueues
successfully: the call either returns unchanged (cancellation set) or
faults on the closed channel, and in every non-faulting outcome the buffer
is exactly what it was — so nothing reported after shutdown initiation can
reach a publisher. -/
theorem no_successful_enqueue_after_close (m : Manager) (e : Bool)
    (a : String) (c : Int) (hcl : m.chanClosed = true) :
    Send m e a c = (if m.ctxCancelled then Except.ok m
      else Except.error "send on closed channel") ∧
    (∀ m', Send m e a c = .ok m' → m'.buffer = m.buffer) := by
  have h1 : Send m e a c = (if m.ctxCancelled then Except.ok m
      else Except.error "send on closed channel") := by
    by_cases hc : m.ctxCancelled = true
    · rw [Send_eq_enqueueAll, enqueueAll_cancelled _ m hc]
      simp [hc]
    · have hc' : m.ctxCancelled = false := by
        cases hcc : m.ctxCancelled
        · rfl
        · exact absurd hcc hc
      rw [Send_eq_enqueueAll,
        enqueueAll_closed _ m (sendDatapoints_ne_nil e a c) hcl hc', hc']
      simp
  refine ⟨h1, fun m' h => ?_⟩
  rw [h1] at h
  by_cases hc : m.ctxCancelled = true
  · simp only [hc, if_true] at h
    cases h
    rfl
  · have hc' : m.ctxCancelled = false := by
      cases hcc : m.ctxCancelled
      · rfl
      · exact absurd hcc hc
    rw [hc'] at h
    simp at h

/-- Witness for C6 on the closed sample manager. -/
theorem no_successful_enqueue_after_close_witness :
    closedManager.chanClosed = true ∧
    Send closedManager false "PutObject" 100 =
      .error "send on closed channel" ∧
    Send cancelledClosedManager false "PutObject" 100 =
      .ok cancelledClosedManager :=
  ⟨rfl,
   (no_successful_enqueue_after_close closedManager false "PutObject" 100
       rfl).1,
   (no_successful_enqueue_after_close cancelledClosedManager false
       "PutObject" 100 rfl).1⟩

/-- C1: `Close` on a manager with K buffered datapoints first has the
consumer drain them — every publisher receives exactly K `Add` calls, one
per buffered datapoint, in FIFO order, the publishers visited in
registration order for each datapoint (`forwardOne`) — with no `Close` on
any publisher occurring during the drain; afterwards every publisher is
shut down in registration order.  The state `Close` returns has an empty
buffer: the drain has completed (the consumer exited) before `Close`
returns. -/
theorem close_delivers_all_then_shuts_down (m : Manager) (p : Nat)
    (hnd : m.publishers.Nodup) (hp : p ∈ m.publishers) :
    (Close m).2 = addForwarder m.publishers m.buffer ++
      m.publishers.map Event.shutdown ∧
    (∀ ev ∈ addForwarder m.publishers m.buffer, isRecordEvent ev = true) ∧
    (addForwarder m.publishers m.buffer).filter (isRecordOf p) =
      m.buffer.map (Event.record p) ∧
    ((addForwarder m.publishers m.buffer).filter (isRecordOf p)).length =
      m.buffer.length ∧
    (Close m).2.filter (fun ev => !isRecordEvent ev) =
      m.publishers.map Event.shutdown ∧
    (Close m).1.buffer = [] := by
  refine ⟨rfl, addForwarder_all_records _ _,
    addForwarder_filter _ p _ hp hnd, ?_, ?_, rfl⟩
  · rw [addForwarder_filter _ p _ hp hnd, List.length_map]
  · have h1 : (addForwarder m.publishers m.buffer).filter
        (fun ev => !isRecordEvent ev) = [] := by
      rw [List.filter_eq_nil_iff]
      intro ev hev
      simp [addForwarder_all_records m.publishers m.buffer ev hev]
    have h2 : (m.publishers.map Event.shutdown).filter
        (fun ev => !isRecordEvent ev) = m.publishers.map Event.shutdown := by
      rw [List.filter_eq_self]
      intro ev hev
      rcases List.mem_map.mp hev with ⟨q, _, rfl⟩
      rfl
    show (addForwarder m.publishers m.buffer ++
        m.publishers.map Event.shutdown).filter _ = _
    rw [List.filter_append, h1, h2, List.nil_append]

/-- Witness for C1 on the sample manager (two buffered datapoints, two
publishers), publisher 0. -/
theorem close_delivers_all_then_shuts_down_witness :
    sampleManager.publishers.Nodup ∧
    0 ∈ sampleManager.publishers ∧
    (addForwarder sampleManager.publishers sampleManager.buffer).filter
        (isRecordOf 0) =
      sampleManager.buffer.map (Event.record 0) ∧
    (Close sampleManager).2.filter (fun ev => !isRecordEvent ev) =
      sampleManager.publishers.map Event.shutdown ∧
    (Close sampleManager).1.buffer = [] :=
  ⟨by decide, by decide,
   (close_delivers_all_then_shuts_down sampleManager 0 (by decide)
       (by decide)).2.2.1,
   (close_delivers_all_then_shuts_down sampleManager 0 (by decide)
       (by decide)).2.2.2.2.1,
   (close_delivers_all_then_shuts_down sampleManager 0 (by decide)
       (by decide)).2.2.2.2.2⟩

/-- C8: with no backend endpoints the constructor returns the absent
pipeline and no error regardless of the service name; otherwise the
hostname error (the only `ConfigurationError`) is returned exactly when the
service name is unset and host-name resolution fails; and when the service
name is unset and resolution succeeds, the resolved host name becomes the
manager's service name.  No partial manager can accompany an error, by the
shape of the result type. -/
theorem newManager_error_characterization (ctxc : Bool) (conf : Config)
    (hostname : Option String)
    (ns nds : String → String → Except String Nat) :
    (conf.StatsdServers.length = 0 → conf.DogStatsdServers.length = 0 →
      NewManager ctxc conf hostname ns nds = .ok none) ∧
    (NewManager ctxc conf hostname ns nds =
        .error ConstructionError.hostnameError ↔
      (¬(conf.StatsdServers.length = 0 ∧ conf.DogStatsdServers.length = 0) ∧
        conf.ServiceName = "" ∧ hostname = none)) ∧
    (∀ h mgr, conf.ServiceName = "" → hostname = some h →
      NewManager ctxc conf hostname ns nds = .ok (some mgr) →
      mgr.config.ServiceName = h) := by
  refine ⟨fun h1 h2 => by simp [NewManager, h1, h2], ⟨?_, ?_⟩, ?_⟩
  · intro h
    by_cases h0 : conf.StatsdServers.length = 0 ∧
        conf.DogStatsdServers.length = 0
    · unfold NewManager at h
      rw [if_pos h0] at h
      cases h
    · unfold NewManager at h
      rw [if_neg h0] at h
      by_cases hsn : conf.ServiceName = ""
      · rw [if_pos hsn] at h
        cases hh : hostname with
        | none => exact ⟨h0, hsn, rfl⟩
        | some hn =>
            rw [hh, except_ok_bind] at h
            rcases setupPublishers_cases ctxc { conf with ServiceName := hn }
                ns nds with ⟨mgr, heq, _⟩ | ⟨msg, heq⟩ <;>
              rw [heq] at h <;> simp at h
      · rw [if_neg hsn, except_ok_bind] at h
        rcases setupPublishers_cases ctxc conf ns nds with
            ⟨mgr, heq, _⟩ | ⟨msg, heq⟩ <;>
          rw [heq] at h <;> simp at h
  · rintro ⟨h0, hsn, rfl⟩
    unfold NewManager
    rw [if_neg h0, if_pos hsn]
    rfl
  · intro h mgr hsn hh hok
    by_cases h0 : conf.StatsdServers.length = 0 ∧
        conf.DogStatsdServers.length = 0
    · unfold NewManager at hok
      rw [if_pos h0] at hok
      simp at hok
    · unfold NewManager at hok
      rw [if_neg h0, if_pos hsn, hh, except_ok_bind] at hok
      rcases setupPublishers_cases ctxc { conf with ServiceName := h }
          ns nds with ⟨mgr', heq, hcfg⟩ | ⟨msg, heq⟩
      · rw [heq] at hok
        simp only [Except.ok.injEq, Option.some.injEq] at hok
        subst hok
        rw [hcfg]
      · rw [heq] at hok
        simp at hok

/-- Witness for C8: a config with a statsd endpoint, no service name, and
failing host-name resolution fails with the hostname error; a config with
no endpoints yields the absent pipeline. -/
theorem newManager_error_characterization_witness :
    NewManager false ⟨"", "localhost:8125", ""⟩ none
        (fun _ _ => Except.ok 0) (fun _ _ => Except.ok 0) =
      .error ConstructionError.hostnameError ∧
    NewManager false ⟨"", "", ""⟩ (some "resolved-host")
        (fun _ _ => Except.ok 0) (fun _ _ => Except.ok 0) = .ok none :=
  ⟨(newManager_error_characterization false ⟨"", "localhost:8125", ""⟩ none
      (fun _ _ => Except.ok 0) (fun _ _ => Except.ok 0)).2.1.mpr
      ⟨by decide, rfl, rfl⟩,
   (newManager_error_characterization false ⟨"", "", ""⟩
      (some "resolved-host") (fun _ _ => Except.ok 0)
      (fun _ _ => Except.ok 0)).1 rfl rfl⟩

/-- Counterexample to C7 as stated: with no endpoints configured the
constructor does return the absent pipeline without error, but `report`
and `close` on that absent (nil) pipeline are not safe no-ops — each
faults with a nil-pointer dereference (`add` dereferences `m.ctx`,
`Close` dereferences `m.addDataChan`, on a nil receiver). -/
theorem absent_pipeline_not_safe_noop :
    NewManager false ⟨"svc", "", ""⟩ (some "host")
        (fun _ _ => Except.ok 0) (fun _ _ => Except.ok 0) = .ok none ∧
    sendOnPipeline none false "PutObject" 100 =
      .error "invalid memory address or nil pointer dereference" ∧
    closeOnPipeline none =
      .error "invalid memory address or nil pointer dereference" :=
  ⟨by simp [NewManager], rfl, rfl⟩

/-- C7 amended: with no backend endpoints configured, construction returns
the absent pipeline (nil) and no error; the absent pipeline is inert only
if it is never invoked — calling `report` or `close` on it faults with a
nil-pointer dereference, so callers must check for absence before use. -/
theorem absent_pipeline_requires_presence_check (ctxc : Bool)
    (conf : Config) (hostname : Option String)
    (ns nds : String → String → Except String Nat) (e : Bool) (a : String)
    (c : Int) (h1 : conf.StatsdServers.length = 0)
    (h2 : conf.DogStatsdServers.length = 0) :
    NewManager ctxc conf hostname ns nds = .ok none ∧
    sendOnPipeline none e a c =
      .error "invalid memory address or nil pointer dereference" ∧
    closeOnPipeline none =
      .error "invalid memory address or nil pointer dereference" :=
  ⟨by simp [NewManager, h1, h2], rfl, rfl⟩

/-- Witness for the amended C7 at a concrete endpoint-free config. -/
theorem absent_pipeline_requires_presence_check_witness :
    (("" : String).length = 0) ∧
    NewManager true ⟨"some-service", "", ""⟩ none
        (fun _ _ => Except.ok 0) (fun _ _ => Except.ok 0) = .ok none ∧
    sendOnPipeline none true "GetObject" 42 =
      .error "invalid memory address or nil pointer dereference" ∧
    closeOnPipeline none =
      .error "invalid memory address or nil pointer dereference" :=
  ⟨rfl,
   absent_pipeline_requires_presence_check true ⟨"some-service", "", ""⟩
     none (fun _ _ => Except.ok 0) (fun _ _ => Except.ok 0) true "GetObject"
     42 rfl rfl⟩

end Metrics
